import Mathlib

/-!
Verification of the dead-code detector in `scripts/check_dead_code.py`.

The Python script scans a monorepo for TypeScript/JavaScript files, and then
extracts specifiers and export names from each file, resolves specifiers to
on-disk files, builds a dependency graph, and classifies files as unused,
orphaned, or export-less.  This file shallowly embeds the script: paths are
lists of components, the filesystem is an explicit structure, fallible Python
code is `Except`-valued (an uncaught exception is `.error`), and the regex
tables of the extractor are an uninterpreted text-level parameter (the claims
under study do not depend on the regex internals, only on how extraction
results flow through the pipeline).
-/

namespace DeadCode

/-- An absolute path, represented as the list of its components below the
filesystem root: `Path("/a/b")` is `["a", "b"]`, `Path("/")` is `[]`. -/
abbrev AbsPath := List String

/-- Final component of a path; the empty string for the filesystem root
(mirrors `pathlib.PurePath.name`). -/
def pathName (p : AbsPath) : String := p.getLastD ""

/-- Python `str.startswith`. -/
def pyStartsWith (s pat : String) : Bool := decide (pat.toList <+: s.toList)

/-- Python `str.endswith`. -/
def pyEndsWith (s pat : String) : Bool := decide (pat.toList <:+ s.toList)

/-- Index of the last occurrence of a character in a list (Python `str.rfind`). -/
def lastIdxOf (c : Char) (l : List Char) : Option Nat :=
  match l.reverse.findIdx? (fun d => d == c) with
  | some j => some (l.length - 1 - j)
  | none => none

/-- Python `pathlib` suffix of a file name: the part of the name from its last
dot, when that dot is neither the first nor the last character; empty
otherwise. -/
def pySuffixOfName (name : String) : String :=
  match lastIdxOf '.' name.toList with
  | some i => if 0 < i ∧ i < name.toList.length - 1 then ⟨name.toList.drop i⟩ else ""
  | none => ""

/-- Python `PurePath.with_suffix` applied to a bare file name: the old suffix is
replaced by the new one, or the new one is appended when the name has no
suffix. -/
def pyWithSuffixName (name ext : String) : String :=
  let old := pySuffixOfName name
  if old = "" then name ++ ext
  else (⟨name.toList.take (name.toList.length - old.toList.length)⟩ : String) ++ ext

/-- Python `Path.with_suffix` at the path level; `none` models the `ValueError`
raised when the path has an empty name (for example `Path("/")`). -/
def pyWithSuffix (p : AbsPath) (ext : String) : Option AbsPath :=
  if pathName p = "" then none
  else some (p.dropLast ++ [pyWithSuffixName (pathName p) ext])

/-- Split a character list on a separator character; the second argument is the
reversed current chunk. -/
def splitOnChar (c : Char) : List Char → List Char → List (List Char)
  | [], acc => [acc.reverse]
  | d :: rest, acc =>
    if d == c then acc.reverse :: splitOnChar c rest []
    else splitOnChar c rest (d :: acc)

/-- Components contributed by one path segment string, as `pathlib` parses it:
split on the slash, dropping empty components and lone dots (Python drops `.`
components at construction; `..` is kept and handled by `resolve`). -/
def splitSpec (s : String) : List String :=
  ((splitOnChar '/' s.toList []).map (fun l => (⟨l⟩ : String))).filter
    (fun comp => decide (comp ≠ "" ∧ comp ≠ "."))

/-- Python `Path` division `base / seg`: an absolute right operand discards the
base entirely. -/
def pyJoin (base : AbsPath) (seg : String) : AbsPath :=
  if pyStartsWith seg "/" then splitSpec seg else base ++ splitSpec seg

/-- Python `Path.resolve` in a model without symlinks: normalize `..`
components, staying at the filesystem root when it is popped past. -/
def pyNormalize (p : AbsPath) : AbsPath :=
  p.foldl (fun acc comp => if comp = ".." then acc.dropLast else acc ++ [comp]) []

/-- Python `str(path)` for a root-relative path: components joined with
slashes. -/
def joinStr : AbsPath → String
  | [] => ""
  | [comp] => comp
  | comp :: rest => comp ++ "/" ++ joinStr rest

/-- Python string slice `s[n:]`. -/
def pyStrDrop (s : String) (n : Nat) : String := ⟨s.toList.drop n⟩

/-- Python `Path.relative_to`: the trailing components when `root` is a path
prefix, `none` modelling the `ValueError` raised otherwise. -/
def relTo (root p : AbsPath) : Option AbsPath :=
  if root <+: p then some (p.drop root.length) else none

/-- The filesystem visible to one run: the regular files, the directories, and
the text of each readable file (`none` models a read failure, i.e. an exception
raised by `Path.read_text`). -/
structure FS where
  filesOnDisk : List AbsPath
  dirsOnDisk : List AbsPath
  content : AbsPath → Option String

/-- Python `Path.exists`. -/
def pathExists (fs : FS) (p : AbsPath) : Bool :=
  decide (p ∈ fs.filesOnDisk ∨ p ∈ fs.dirsOnDisk)

/-- Python `Path.is_file`. -/
def pathIsFile (fs : FS) (p : AbsPath) : Bool := decide (p ∈ fs.filesOnDisk)

/-- Python `Path.is_dir`. -/
def pathIsDir (fs : FS) (p : AbsPath) : Bool := decide (p ∈ fs.dirsOnDisk)

/-- `self.include_extensions` of `DeadCodeDetector` in one fixed iteration
order.  The source value is a Python hash set: its per-run iteration order is
hash-randomized, and `resolve_import_path` consumes that order sensitively in
its extension and index loops, so the order is a run input.  The functions
whose behaviour depends on it take the order as an explicit `exts` parameter
(the `Ord` variants below); this constant is the specialization used by the
order-insensitive claims, and the membership test in `scan_files` does not
depend on the order at all. -/
def include_extensions : List String := [".ts", ".tsx", ".js", ".jsx", ".mjs", ".cjs"]

/-- `self.entry_patterns` of `DeadCodeDetector`. -/
def entry_patterns : List String :=
  ["page.tsx", "layout.tsx", "route.ts", "middleware.ts",
   "app.tsx", "app.ts", "_app.tsx", "_document.tsx",
   "index.ts", "index.tsx", "index.js", "index.jsx",
   "main.ts", "main.tsx", "main.js", "main.jsx",
   "server.ts", "server.js"]

/-- `self.config_files` of `DeadCodeDetector`. -/
def config_files : List String :=
  ["next.config.js", "next.config.mjs", "next.config.ts",
   "tailwind.config.js", "tailwind.config.ts",
   "postcss.config.js", "postcss.config.mjs",
   "vitest.config.ts", "vite.config.ts",
   "playwright.config.ts",
   "turbo.json", "tsconfig.json", "package.json",
   "biome.json", "convex.json"]

/-- `self.exclude_dirs` of `DeadCodeDetector`. -/
def exclude_dirs : List String :=
  ["node_modules", ".next", "dist", "build", ".turbo",
   ".git", ".vercel", "output", ".husky", ".claude",
   "__pycache__", ".pytest_cache", "coverage",
   "playwright-report", ".playwright-mcp"]

/-- `DeadCodeDetector.is_entry_point`: entry filename patterns, the config
filename allowlist, test/spec filename endings, or a `convex` path segment. -/
def is_entry_point (p : AbsPath) : Bool :=
  decide (pathName p ∈ entry_patterns) ||
  decide (pathName p ∈ config_files) ||
  pyEndsWith (pathName p) ".spec.ts" ||
  pyEndsWith (pathName p) ".test.ts" ||
  pyEndsWith (pathName p) ".spec.tsx" ||
  pyEndsWith (pathName p) ".test.tsx" ||
  pyEndsWith (pathName p) ".spec.js" ||
  pyEndsWith (pathName p) ".test.js" ||
  decide ("convex" ∈ p)

/-- `DeadCodeDetector.scan_files`: a file on disk is scanned when it lies under
the root, its suffix is an included extension, and no directory on the way to
it (the `os.walk` pruning of `exclude_dirs` together with the
`is_excluded_dir` check, which inspects the full absolute path) is excluded. -/
def scan_files (fs : FS) (rootDir : AbsPath) : List AbsPath :=
  fs.filesOnDisk.filter (fun p =>
    decide (rootDir <+: p) &&
    decide (pySuffixOfName (pathName p) ∈ include_extensions) &&
    p.dropLast.all (fun d => decide (d ∉ exclude_dirs)))

/-- A Python exception escaping a function of the script.  Every uncaught
exception reachable in `resolve_import_path` is a `ValueError` (from
`Path.relative_to`, `tuple.index`, or `Path.with_suffix`). -/
inductive PyExn where
  | valueError
  deriving DecidableEq

/-- One run's inputs: the filesystem, the resolved scan root, and the two
text-level extraction functions.  The extraction functions stand for the regex
tables `import_patterns` and `export_patterns` applied to a file's text; the
claims under study depend only on extraction results, not on the regexes. -/
structure Ctx where
  fs : FS
  rootDir : AbsPath
  extractImports : String → List String
  extractExports : String → List String

/-- Alias (`@/`) base directory selection inside `resolve_import_path`
(lines 163-181): choose a conventional source root from the originating file's
root-relative path.  The string-prefix tests and the `parts.index("packages")`
call are modelled faithfully, including the `ValueError` raised by `index`
when `"packages"` is not a component although the relative path string starts
with `"packages"`. -/
def aliasBase (rootDir fromFile : AbsPath) : Except PyExn AbsPath :=
  match relTo rootDir fromFile with
  | none => .error .valueError
  | some rel =>
    if pyStartsWith (joinStr rel) "apps/web" then
      .ok (rootDir ++ ["apps", "web", "src"])
    else if pyStartsWith (joinStr rel) "apps/admin" then
      .ok (rootDir ++ ["apps", "admin", "src"])
    else if pyStartsWith (joinStr rel) "packages" then
      match fromFile.findIdx? (fun comp => comp == "packages") with
      | none => .error .valueError
      | some pkgIdx =>
        if pkgIdx + 1 < fromFile.length then .ok (fromFile.take (pkgIdx + 2) ++ ["src"])
        else .ok fromFile.dropLast
    else .ok (rootDir ++ ["src"])

/-- The extension-candidate loop of `resolve_import_path` (lines 197-200):
`candidate.with_suffix(ext)` for each extension in turn, returning the first
candidate that exists; `with_suffix` raising propagates as `.error`. -/
def resolveExtCandidates (fs : FS) (candidate : AbsPath) : List String → Except PyExn (Option AbsPath)
  | [] => .ok none
  | ext :: rest =>
    match pyWithSuffix candidate ext with
    | none => .error .valueError
    | some cand =>
      if pathExists fs cand then .ok (some cand) else resolveExtCandidates fs candidate rest

/-- The index-file loop of `resolve_import_path` (lines 203-207): the first
existing `index.<ext>` inside the candidate directory. -/
def findIndexFile (fs : FS) (candidate : AbsPath) : List String → Option AbsPath
  | [] => none
  | ext :: rest =>
    if pathExists fs (candidate ++ ["index" ++ ext]) then some (candidate ++ ["index" ++ ext])
    else findIndexFile fs candidate rest

/-- Candidate resolution stage of `resolve_import_path` (lines 193-209): the
combined path as an exact existing file, then the extension candidates, then
the index files when the path is a directory. -/
def resolveCandidate (fs : FS) (candidate : AbsPath) : Except PyExn (Option AbsPath) :=
  if pathExists fs candidate && pathIsFile fs candidate then .ok (some candidate)
  else
    match resolveExtCandidates fs candidate include_extensions with
    | .error e => .error e
    | .ok (some found) => .ok (some found)
    | .ok none =>
      if pathIsDir fs candidate then .ok (findIndexFile fs candidate include_extensions)
      else .ok none

/-- `DeadCodeDetector.resolve_import_path` (lines 155-209): external check,
alias expansion with existence fallback, join against the base directory,
normalization, then candidate resolution. -/
def resolve_import_path (ctx : Ctx) (fromFile : AbsPath) (importStr : String) :
    Except PyExn (Option AbsPath) :=
  if !pyStartsWith importStr "." && !pyStartsWith importStr "/" &&
     !pyStartsWith importStr "@/" then
    .ok none
  else if pyStartsWith importStr "@/" then
    match aliasBase ctx.rootDir fromFile with
    | .error e => .error e
    | .ok base0 =>
      let base := if pathExists ctx.fs base0 then base0 else fromFile.dropLast
      resolveCandidate ctx.fs (pyNormalize (pyJoin base (pyStrDrop importStr 2)))
  else
    resolveCandidate ctx.fs (pyNormalize (pyJoin fromFile.dropLast importStr))

/-- `DeadCodeDetector.parse_imports`: the extracted import specifiers, or the
empty set when the file's text cannot be read (the exception is caught and
reported as a warning). -/
def importsOf (ctx : Ctx) (p : AbsPath) : List String :=
  match ctx.fs.content p with
  | none => []
  | some txt => ctx.extractImports txt

/-- `DeadCodeDetector.parse_exports`: the extracted export names, or the empty
set when the file's text cannot be read. -/
def exportsOf (ctx : Ctx) (p : AbsPath) : List String :=
  match ctx.fs.content p with
  | none => []
  | some txt => ctx.extractExports txt

/-- The inner loop of `build_dependency_graph` (lines 223-226): resolve every
specifier of one file, keeping the results that land inside the scanned set.
An exception raised by the resolver propagates (the Python loop has no
handler). -/
def resolveTargets (ctx : Ctx) (scanned : List AbsPath) (fromFile : AbsPath) :
    List String → Except PyExn (List AbsPath)
  | [] => .ok []
  | spec :: rest =>
    match resolve_import_path ctx fromFile spec with
    | .error e => .error e
    | .ok opt =>
      match resolveTargets ctx scanned fromFile rest with
      | .error e => .error e
      | .ok ts =>
        match opt with
        | some tgt => if tgt ∈ scanned then .ok (tgt :: ts) else .ok ts
        | none => .ok ts

/-- `self.file_imports[file_path]` after `build_dependency_graph`: the files
that one scanned file imports. -/
def fileImportsOf (ctx : Ctx) (scanned : List AbsPath) (p : AbsPath) :
    Except PyExn (List AbsPath) :=
  resolveTargets ctx scanned p (importsOf ctx p)

/-- Edge accumulation of `build_dependency_graph` over an iteration order of
the scanned set; the first argument list is the scanned set used for the
membership test, the last is the remaining iteration. -/
def edgesAux (ctx : Ctx) (scanned : List AbsPath) :
    List AbsPath → Except PyExn (List (AbsPath × AbsPath))
  | [] => .ok []
  | p :: rest =>
    match fileImportsOf ctx scanned p with
    | .error e => .error e
    | .ok ts =>
      match edgesAux ctx scanned rest with
      | .error e => .error e
      | .ok es => .ok (ts.map (fun t => (p, t)) ++ es)

/-- The dependency graph's edge relation produced by
`build_dependency_graph`. -/
def graph_edges (ctx : Ctx) (scanned : List AbsPath) :
    Except PyExn (List (AbsPath × AbsPath)) :=
  edgesAux ctx scanned scanned

/-- The `imported_files` set of `find_unused_files` (lines 230-232): every file
that is the target of at least one edge. -/
def importedFiles (es : List (AbsPath × AbsPath)) : List AbsPath :=
  es.map Prod.snd

/-- `DeadCodeDetector.find_unused_files` (lines 228-239): scanned files that
are the target of no edge and are not entry points. -/
def find_unused_files (scanned : List AbsPath) (es : List (AbsPath × AbsPath)) :
    List AbsPath :=
  scanned.filter (fun p => !decide (p ∈ importedFiles es) && !is_entry_point p)

/-- `DeadCodeDetector.find_orphaned_files` (lines 241-249): scanned files with
an empty import set and an empty export set that are not entry points. -/
def find_orphaned_files (ctx : Ctx) (scanned : List AbsPath) : List AbsPath :=
  scanned.filter (fun p =>
    (importsOf ctx p).isEmpty && (exportsOf ctx p).isEmpty && !is_entry_point p)

/-- `DeadCodeDetector.find_files_with_no_exports` (lines 251-259): scanned
files with a non-empty import set and an empty export set that are not entry
points. -/
def find_files_with_no_exports (ctx : Ctx) (scanned : List AbsPath) : List AbsPath :=
  scanned.filter (fun p =>
    !(importsOf ctx p).isEmpty && (exportsOf ctx p).isEmpty && !is_entry_point p)

/-- The `ClassificationResult` produced by `generate_report`: the three result
sets plus the total file count (the remaining summary entries are the lengths
of the three sets). -/
structure Report where
  total_files : Nat
  unused_files : List AbsPath
  orphaned_files : List AbsPath
  files_with_no_exports : List AbsPath
  deriving DecidableEq

/-- `DeadCodeDetector.generate_report` run over an explicit iteration order of
the scanned set; an exception escaping `build_dependency_graph` aborts the
run. -/
def generate_report_on (ctx : Ctx) (scanned : List AbsPath) : Except PyExn Report :=
  match graph_edges ctx scanned with
  | .error e => .error e
  | .ok es =>
    .ok { total_files := scanned.length,
          unused_files := find_unused_files scanned es,
          orphaned_files := find_orphaned_files ctx scanned,
          files_with_no_exports := find_files_with_no_exports ctx scanned }

/-- The full pipeline of `main` after the root check: scan, build, classify. -/
def generate_report (ctx : Ctx) : Except PyExn Report :=
  generate_report_on ctx (scan_files ctx.fs ctx.rootDir)

/-- `main` (lines 384-422): return code `1` without any scanning when the root
does not exist, otherwise `1` when the unused or orphaned set is non-empty and
`0` when both are empty. -/
def main_ret (ctx : Ctx) : Except PyExn Nat :=
  if !pathExists ctx.fs ctx.rootDir then .ok 1
  else
    match generate_report ctx with
    | .error e => .error e
    | .ok r =>
      .ok (if r.unused_files.length > 0 || r.orphaned_files.length > 0 then 1 else 0)

/-! ### The pipeline generalized over the extension-set iteration order

`self.include_extensions` is a Python hash set, and the `for ext in
self.include_extensions` loops of `resolve_import_path` observe it in the
hash-determined order of the running interpreter, which varies from run to
run.  The `Ord` functions below are the same code with that order as an
explicit `exts` argument; each fixed-order function above is their
specialization at `include_extensions`, proved as an agreement lemma. -/

/-- `resolveCandidate` with the extension iteration order explicit. -/
def resolveCandidateOrd (fs : FS) (exts : List String) (candidate : AbsPath) :
    Except PyExn (Option AbsPath) :=
  if pathExists fs candidate && pathIsFile fs candidate then .ok (some candidate)
  else
    match resolveExtCandidates fs candidate exts with
    | .error e => .error e
    | .ok (some found) => .ok (some found)
    | .ok none =>
      if pathIsDir fs candidate then .ok (findIndexFile fs candidate exts)
      else .ok none

/-- `resolve_import_path` with the extension iteration order explicit. -/
def resolveImportPathOrd (ctx : Ctx) (exts : List String) (fromFile : AbsPath)
    (importStr : String) : Except PyExn (Option AbsPath) :=
  if !pyStartsWith importStr "." && !pyStartsWith importStr "/" &&
     !pyStartsWith importStr "@/" then
    .ok none
  else if pyStartsWith importStr "@/" then
    match aliasBase ctx.rootDir fromFile with
    | .error e => .error e
    | .ok base0 =>
      let base := if pathExists ctx.fs base0 then base0 else fromFile.dropLast
      resolveCandidateOrd ctx.fs exts (pyNormalize (pyJoin base (pyStrDrop importStr 2)))
  else
    resolveCandidateOrd ctx.fs exts (pyNormalize (pyJoin fromFile.dropLast importStr))

/-- `resolveTargets` with the extension iteration order explicit. -/
def resolveTargetsOrd (ctx : Ctx) (exts : List String) (scanned : List AbsPath)
    (fromFile : AbsPath) : List String → Except PyExn (List AbsPath)
  | [] => .ok []
  | spec :: rest =>
    match resolveImportPathOrd ctx exts fromFile spec with
    | .error e => .error e
    | .ok opt =>
      match resolveTargetsOrd ctx exts scanned fromFile rest with
      | .error e => .error e
      | .ok ts =>
        match opt with
        | some tgt => if tgt ∈ scanned then .ok (tgt :: ts) else .ok ts
        | none => .ok ts

/-- `fileImportsOf` with the extension iteration order explicit. -/
def fileImportsOfOrd (ctx : Ctx) (exts : List String) (scanned : List AbsPath)
    (p : AbsPath) : Except PyExn (List AbsPath) :=
  resolveTargetsOrd ctx exts scanned p (importsOf ctx p)

/-- `edgesAux` with the extension iteration order explicit. -/
def edgesAuxOrd (ctx : Ctx) (exts : List String) (scanned : List AbsPath) :
    List AbsPath → Except PyExn (List (AbsPath × AbsPath))
  | [] => .ok []
  | p :: rest =>
    match fileImportsOfOrd ctx exts scanned p with
    | .error e => .error e
    | .ok ts =>
      match edgesAuxOrd ctx exts scanned rest with
      | .error e => .error e
      | .ok es => .ok (ts.map (fun t => (p, t)) ++ es)

/-- `graph_edges` with the extension iteration order explicit. -/
def graphEdgesOrd (ctx : Ctx) (exts : List String) (scanned : List AbsPath) :
    Except PyExn (List (AbsPath × AbsPath)) :=
  edgesAuxOrd ctx exts scanned scanned

/-- `generate_report_on` with the extension iteration order explicit: one
complete run of the pipeline on a scanned set, under a given iteration order
of the scanned set and a given iteration order of the extension set. -/
def generateReportOnOrd (ctx : Ctx) (exts : List String) (scanned : List AbsPath) :
    Except PyExn Report :=
  match graphEdgesOrd ctx exts scanned with
  | .error e => .error e
  | .ok es =>
    .ok { total_files := scanned.length,
          unused_files := find_unused_files scanned es,
          orphaned_files := find_orphaned_files ctx scanned,
          files_with_no_exports := find_files_with_no_exports ctx scanned }

instance {ε α : Type} [DecidableEq ε] [DecidableEq α] : DecidableEq (Except ε α) := fun a b =>
  match a, b with
  | .error e₁, .error e₂ =>
    if h : e₁ = e₂ then .isTrue (by rw [h]) else .isFalse (by intro hc; injection hc; contradiction)
  | .error _, .ok _ => .isFalse (by intro hc; injection hc)
  | .ok _, .error _ => .isFalse (by intro hc; injection hc)
  | .ok a₁, .ok a₂ =>
    if h : a₁ = a₂ then .isTrue (by rw [h]) else .isFalse (by intro hc; injection hc; contradiction)

/-! ### Bridging lemmas about the classifier -/

theorem mem_find_unused {scanned : List AbsPath} {es : List (AbsPath × AbsPath)} {p : AbsPath} :
    p ∈ find_unused_files scanned es ↔
      p ∈ scanned ∧ p ∉ importedFiles es ∧ is_entry_point p = false := by
  simp [find_unused_files, List.mem_filter, Bool.and_eq_true, Bool.not_eq_true',
    decide_eq_false_iff_not]

theorem mem_find_orphaned {ctx : Ctx} {scanned : List AbsPath} {p : AbsPath} :
    p ∈ find_orphaned_files ctx scanned ↔
      p ∈ scanned ∧ importsOf ctx p = [] ∧ exportsOf ctx p = [] ∧
        is_entry_point p = false := by
  simp [find_orphaned_files, List.mem_filter, Bool.and_eq_true, Bool.not_eq_true',
    List.isEmpty_iff, and_assoc]

theorem mem_find_no_exports {ctx : Ctx} {scanned : List AbsPath} {p : AbsPath} :
    p ∈ find_files_with_no_exports ctx scanned ↔
      p ∈ scanned ∧ importsOf ctx p ≠ [] ∧ exportsOf ctx p = [] ∧
        is_entry_point p = false := by
  simp [find_files_with_no_exports, List.mem_filter, Bool.and_eq_true, Bool.not_eq_true',
    List.isEmpty_iff, and_assoc]

theorem generate_report_on_fields {ctx : Ctx} {scanned : List AbsPath}
    {es : List (AbsPath × AbsPath)} {r : Report}
    (hE : graph_edges ctx scanned = .ok es)
    (hr : generate_report_on ctx scanned = .ok r) :
    r.total_files = scanned.length ∧
    r.unused_files = find_unused_files scanned es ∧
    r.orphaned_files = find_orphaned_files ctx scanned ∧
    r.files_with_no_exports = find_files_with_no_exports ctx scanned := by
  unfold generate_report_on at hr
  rw [hE] at hr
  injection hr with hr
  subst hr
  exact ⟨rfl, rfl, rfl, rfl⟩

theorem generate_report_on_edges {ctx : Ctx} {scanned : List AbsPath} {r : Report}
    (hr : generate_report_on ctx scanned = .ok r) :
    ∃ es, graph_edges ctx scanned = .ok es := by
  unfold generate_report_on at hr
  cases hE : graph_edges ctx scanned with
  | error e => rw [hE] at hr; exact absurd hr (by simp)
  | ok es => exact ⟨es, rfl⟩

theorem edgesAux_mem_ok {ctx : Ctx} {scanned : List AbsPath} {iter : List AbsPath}
    {es : List (AbsPath × AbsPath)} {p t : AbsPath}
    (h : edgesAux ctx scanned iter = .ok es) (hmem : (p, t) ∈ es) :
    ∃ ts, fileImportsOf ctx scanned p = .ok ts ∧ t ∈ ts := by
  induction iter generalizing es with
  | nil =>
    unfold edgesAux at h
    injection h with h
    subst h
    exact absurd hmem (by simp)
  | cons q rest ih =>
    unfold edgesAux at h
    cases hq : fileImportsOf ctx scanned q with
    | error e => rw [hq] at h; exact absurd h (by simp)
    | ok ts =>
      rw [hq] at h
      cases hrest : edgesAux ctx scanned rest with
      | error e => rw [hrest] at h; exact absurd h (by simp)
      | ok es₂ =>
        rw [hrest] at h
        injection h with h
        subst h
        rcases List.mem_append.mp hmem with hleft | hright
        · rcases List.mem_map.mp hleft with ⟨t₂, ht₂, heq⟩
          obtain ⟨hq₂, ht⟩ : q = p ∧ t₂ = t := by
            constructor <;> [exact congrArg Prod.fst heq; exact congrArg Prod.snd heq]
          subst hq₂; subst ht
          exact ⟨ts, hq, ht₂⟩
        · exact ih hrest hright

theorem fileImportsOf_imports_ne_nil {ctx : Ctx} {scanned : List AbsPath}
    {p t : AbsPath} {ts : List AbsPath}
    (h : fileImportsOf ctx scanned p = .ok ts) (ht : t ∈ ts) :
    importsOf ctx p ≠ [] := by
  intro hnil
  unfold fileImportsOf at h
  rw [hnil] at h
  unfold resolveTargets at h
  injection h with h
  subst h
  exact absurd ht (by simp)

/-! ### Lemmas about candidate resolution -/

/-- Total version of `with_suffix` for a path whose name is non-empty. -/
def pyWithSuffixTotal (p : AbsPath) (ext : String) : AbsPath :=
  p.dropLast ++ [pyWithSuffixName (pathName p) ext]

/-- Candidate search as the amended claim C5 words it: the combined path as an
exact existing file; then the suffix-substituted extension candidates in
order; then, when the path is an existing directory, the `index.<ext>`
candidates in order; the first candidate that exists on disk is returned. -/
def specCandidateSearch (fs : FS) (c : AbsPath) : Option AbsPath :=
  if pathIsFile fs c then some c
  else
    match (include_extensions.map (pyWithSuffixTotal c)).find? (fun q => pathExists fs q) with
    | some q => some q
    | none =>
      if pathIsDir fs c then
        (include_extensions.map (fun ext => c ++ ["index" ++ ext])).find? (fun q => pathExists fs q)
      else none

theorem pyWithSuffix_of_name_ne {p : AbsPath} {ext : String} (h : pathName p ≠ "") :
    pyWithSuffix p ext = some (pyWithSuffixTotal p ext) := by
  unfold pyWithSuffix pyWithSuffixTotal
  rw [if_neg h]

theorem resolveExtCandidates_eq_find {fs : FS} {c : AbsPath} (h : pathName c ≠ "")
    (exts : List String) :
    resolveExtCandidates fs c exts =
      .ok ((exts.map (pyWithSuffixTotal c)).find? (fun q => pathExists fs q)) := by
  induction exts with
  | nil => rfl
  | cons ext rest ih =>
    unfold resolveExtCandidates
    rw [pyWithSuffix_of_name_ne h]
    simp only [List.map_cons, List.find?]
    cases hx : pathExists fs (pyWithSuffixTotal c ext) with
    | true => rfl
    | false => exact ih

theorem findIndexFile_eq_find (fs : FS) (c : AbsPath) (exts : List String) :
    findIndexFile fs c exts =
      (exts.map (fun ext => c ++ ["index" ++ ext])).find? (fun q => pathExists fs q) := by
  induction exts with
  | nil => rfl
  | cons ext rest ih =>
    unfold findIndexFile
    simp only [List.map_cons, List.find?]
    cases hx : pathExists fs (c ++ ["index" ++ ext]) with
    | true => rfl
    | false => exact ih

theorem pathIsFile_exists {fs : FS} {p : AbsPath} (h : pathIsFile fs p = true) :
    pathExists fs p = true := by
  unfold pathIsFile at h
  unfold pathExists
  rw [decide_eq_true_iff] at h
  rw [decide_eq_true_iff]
  exact Or.inl h

theorem resolveCandidate_eq_spec {fs : FS} {c : AbsPath} (h : pathName c ≠ "") :
    resolveCandidate fs c = .ok (specCandidateSearch fs c) := by
  unfold resolveCandidate specCandidateSearch
  have hand : (pathExists fs c && pathIsFile fs c) = pathIsFile fs c := by
    cases hf : pathIsFile fs c with
    | false => simp
    | true => rw [pathIsFile_exists hf]; rfl
  rw [hand, resolveExtCandidates_eq_find h include_extensions]
  cases hf : pathIsFile fs c with
  | true => rfl
  | false =>
    cases hfind : (include_extensions.map (pyWithSuffixTotal c)).find? (fun q => pathExists fs q) with
    | some q => rfl
    | none =>
      cases hd : pathIsDir fs c with
      | true => simp [findIndexFile_eq_find]
      | false => rfl

theorem resolveCandidate_ok {fs : FS} {c : AbsPath} (h : pathName c ≠ "") :
    ∃ r, resolveCandidate fs c = .ok r :=
  ⟨specCandidateSearch fs c, resolveCandidate_eq_spec h⟩

theorem pyStartsWith_dot_not_alias {s : String} (h : pyStartsWith s "." = true) :
    pyStartsWith s "@/" = false := by
  unfold pyStartsWith at h ⊢
  rw [decide_eq_true_iff] at h
  rw [decide_eq_false_iff_not]
  intro h₂
  obtain ⟨t₁, ht₁⟩ := h
  obtain ⟨t₂, ht₂⟩ := h₂
  rw [show (".").toList = ['.'] from rfl] at ht₁
  rw [show ("@/").toList = ['@', '/'] from rfl] at ht₂
  have hcontr : ('@' : Char) = '.' := by
    have heq := ht₂.trans ht₁.symm
    simpa using congrArg List.head? heq
  exact absurd hcontr (by decide)

/-! ### Agreement of the fixed-order pipeline with the generalized one -/

theorem resolveCandidate_eq_ord (fs : FS) (c : AbsPath) :
    resolveCandidate fs c = resolveCandidateOrd fs include_extensions c := rfl

theorem resolve_import_path_eq_ord (ctx : Ctx) (f : AbsPath) (s : String) :
    resolve_import_path ctx f s = resolveImportPathOrd ctx include_extensions f s := rfl

theorem resolveTargets_eq_ord (ctx : Ctx) (scanned : List AbsPath) (f : AbsPath)
    (L : List String) :
    resolveTargets ctx scanned f L = resolveTargetsOrd ctx include_extensions scanned f L := by
  induction L with
  | nil => rfl
  | cons spec rest ih => rw [resolveTargets, resolveTargetsOrd, ih, resolve_import_path_eq_ord]

theorem fileImportsOf_eq_ord (ctx : Ctx) (scanned : List AbsPath) (p : AbsPath) :
    fileImportsOf ctx scanned p = fileImportsOfOrd ctx include_extensions scanned p := by
  unfold fileImportsOf fileImportsOfOrd
  rw [resolveTargets_eq_ord]

theorem edgesAux_eq_ord (ctx : Ctx) (scanned iter : List AbsPath) :
    edgesAux ctx scanned iter = edgesAuxOrd ctx include_extensions scanned iter := by
  induction iter with
  | nil => rfl
  | cons p rest ih => rw [edgesAux, edgesAuxOrd, ih, fileImportsOf_eq_ord]

theorem graph_edges_eq_ord (ctx : Ctx) (scanned : List AbsPath) :
    graph_edges ctx scanned = graphEdgesOrd ctx include_extensions scanned := by
  unfold graph_edges graphEdgesOrd
  rw [edgesAux_eq_ord]

theorem generate_report_on_eq_ord (ctx : Ctx) (scanned : List AbsPath) :
    generate_report_on ctx scanned = generateReportOnOrd ctx include_extensions scanned := by
  unfold generate_report_on generateReportOnOrd
  rw [graph_edges_eq_ord]

/-! ### Bridging lemmas for the generalized report -/

theorem generateReportOnOrd_fields {ctx : Ctx} {exts : List String}
    {scanned : List AbsPath} {es : List (AbsPath × AbsPath)} {r : Report}
    (hE : graphEdgesOrd ctx exts scanned = .ok es)
    (hr : generateReportOnOrd ctx exts scanned = .ok r) :
    r.total_files = scanned.length ∧
    r.unused_files = find_unused_files scanned es ∧
    r.orphaned_files = find_orphaned_files ctx scanned ∧
    r.files_with_no_exports = find_files_with_no_exports ctx scanned := by
  unfold generateReportOnOrd at hr
  rw [hE] at hr
  injection hr with hr
  subst hr
  exact ⟨rfl, rfl, rfl, rfl⟩

theorem generateReportOnOrd_edges {ctx : Ctx} {exts : List String}
    {scanned : List AbsPath} {r : Report}
    (hr : generateReportOnOrd ctx exts scanned = .ok r) :
    ∃ es, graphEdgesOrd ctx exts scanned = .ok es := by
  unfold generateReportOnOrd at hr
  cases hE : graphEdgesOrd ctx exts scanned with
  | error e => rw [hE] at hr; exact absurd hr (by simp)
  | ok es => exact ⟨es, rfl⟩

/-! ### Order-independence of the graph builder over the scanned set -/

/-- Relation between two `Except`-valued edge computations: both fail, or both
succeed with permuted edge lists. -/
def ExceptPerm {α : Type} : Except PyExn (List α) → Except PyExn (List α) → Prop
  | .ok l₁, .ok l₂ => l₁.Perm l₂
  | .error _, .error _ => True
  | _, _ => False

theorem ExceptPerm.trans {α : Type} {x y z : Except PyExn (List α)}
    (h₁ : ExceptPerm x y) (h₂ : ExceptPerm y z) : ExceptPerm x z := by
  cases x <;> cases y <;> cases z <;> simp_all [ExceptPerm]
  exact h₁.trans h₂

theorem resolveTargetsOrd_scanned_congr {ctx : Ctx} {exts : List String}
    {s₁ s₂ : List AbsPath} (h : ∀ t, t ∈ s₁ ↔ t ∈ s₂) (f : AbsPath) (L : List String) :
    resolveTargetsOrd ctx exts s₁ f L = resolveTargetsOrd ctx exts s₂ f L := by
  induction L with
  | nil => rfl
  | cons spec rest ih =>
    unfold resolveTargetsOrd
    rw [ih]
    cases resolveImportPathOrd ctx exts f spec with
    | error e => rfl
    | ok opt =>
      cases resolveTargetsOrd ctx exts s₂ f rest with
      | error e => rfl
      | ok ts =>
        cases opt with
        | none => rfl
        | some tgt => exact if_congr (h tgt) rfl rfl

theorem edgesAuxOrd_scanned_congr {ctx : Ctx} {exts : List String}
    {s₁ s₂ : List AbsPath} (h : ∀ t, t ∈ s₁ ↔ t ∈ s₂) (iter : List AbsPath) :
    edgesAuxOrd ctx exts s₁ iter = edgesAuxOrd ctx exts s₂ iter := by
  induction iter with
  | nil => rfl
  | cons p rest ih =>
    unfold edgesAuxOrd
    rw [ih]
    have hfi : fileImportsOfOrd ctx exts s₁ p = fileImportsOfOrd ctx exts s₂ p := by
      unfold fileImportsOfOrd
      exact resolveTargetsOrd_scanned_congr h p _
    rw [hfi]

theorem edgesAuxOrd_iter_perm {ctx : Ctx} {exts : List String} (s : List AbsPath)
    {it₁ it₂ : List AbsPath} (h : it₁.Perm it₂) :
    ExceptPerm (edgesAuxOrd ctx exts s it₁) (edgesAuxOrd ctx exts s it₂) := by
  induction h with
  | nil => exact List.Perm.refl []
  | cons x hp ih =>
    rename_i l₁ l₂
    unfold edgesAuxOrd
    cases hx : fileImportsOfOrd ctx exts s x with
    | error e => trivial
    | ok ts =>
      cases h₁ : edgesAuxOrd ctx exts s l₁ with
      | error e₁ =>
        cases h₂ : edgesAuxOrd ctx exts s l₂ with
        | error e₂ => trivial
        | ok es₂ => rw [h₁, h₂] at ih; exact absurd ih (by simp [ExceptPerm])
      | ok es₁ =>
        cases h₂ : edgesAuxOrd ctx exts s l₂ with
        | error e₂ => rw [h₁, h₂] at ih; exact absurd ih (by simp [ExceptPerm])
        | ok es₂ =>
          rw [h₁, h₂] at ih
          exact List.Perm.append_left _ ih
  | swap x y l =>
    simp only [edgesAuxOrd]
    cases hy : fileImportsOfOrd ctx exts s y with
    | error e =>
      cases hx : fileImportsOfOrd ctx exts s x with
      | error e₂ => trivial
      | ok tsx =>
        cases hl : edgesAuxOrd ctx exts s l with
        | error e₃ => trivial
        | ok es => trivial
    | ok tsy =>
      cases hx : fileImportsOfOrd ctx exts s x with
      | error e₂ =>
        cases hl : edgesAuxOrd ctx exts s l with
        | error e₃ => trivial
        | ok es => trivial
      | ok tsx =>
        cases hl : edgesAuxOrd ctx exts s l with
        | error e₃ => trivial
        | ok es =>
          exact List.perm_append_comm_assoc (tsy.map fun t => (y, t)) (tsx.map fun t => (x, t)) es
  | trans hp₁ hp₂ ih₁ ih₂ => exact ExceptPerm.trans ih₁ ih₂

theorem graphEdgesOrd_perm {ctx : Ctx} {exts : List String} {l₁ l₂ : List AbsPath}
    (h : l₁.Perm l₂) :
    ExceptPerm (graphEdgesOrd ctx exts l₁) (graphEdgesOrd ctx exts l₂) := by
  unfold graphEdgesOrd
  rw [@edgesAuxOrd_scanned_congr ctx exts l₁ l₂ (fun t => h.mem_iff) l₁]
  exact edgesAuxOrd_iter_perm l₂ h

/-! ### Claim theorems -/

/-- Claim C1 (amended): in a run where two scanned files import each other
(an edge in each direction), no other file imports either of them, and neither
matches the entry-point predicate, both files are absent from the unused set —
`find_unused_files` counts a mutual-only reference as an incoming edge — and
neither appears in the orphaned set. -/
theorem cyclic_pair_not_unused_not_orphaned
    (ctx : Ctx) (scanned : List AbsPath) (r : Report) (es : List (AbsPath × AbsPath))
    (a b : AbsPath)
    (hE : graph_edges ctx scanned = .ok es)
    (hr : generate_report_on ctx scanned = .ok r)
    (hA : a ∈ scanned) (hB : b ∈ scanned) (hne : a ≠ b)
    (hab : (a, b) ∈ es) (hba : (b, a) ∈ es)
    (honly : ∀ c, c ∈ scanned → c ≠ a → c ≠ b → (c, a) ∉ es ∧ (c, b) ∉ es)
    (hentA : is_entry_point a = false) (hentB : is_entry_point b = false) :
    a ∉ r.unused_files ∧ b ∉ r.unused_files ∧
    a ∉ r.orphaned_files ∧ b ∉ r.orphaned_files := by
  obtain ⟨-, hu, ho, -⟩ := generate_report_on_fields hE hr
  rw [hu, ho]
  have hE' : edgesAux ctx scanned scanned = .ok es := hE
  have haimp : a ∈ importedFiles es := List.mem_map.mpr ⟨(b, a), hba, rfl⟩
  have hbimp : b ∈ importedFiles es := List.mem_map.mpr ⟨(a, b), hab, rfl⟩
  have haI : importsOf ctx a ≠ [] := by
    obtain ⟨ts, hts, htm⟩ := edgesAux_mem_ok hE' hab
    exact fileImportsOf_imports_ne_nil hts htm
  have hbI : importsOf ctx b ≠ [] := by
    obtain ⟨ts, hts, htm⟩ := edgesAux_mem_ok hE' hba
    exact fileImportsOf_imports_ne_nil hts htm
  refine ⟨?_, ?_, ?_, ?_⟩
  · intro hmem; exact (mem_find_unused.mp hmem).2.1 haimp
  · intro hmem; exact (mem_find_unused.mp hmem).2.1 hbimp
  · intro hmem; exact haI (mem_find_orphaned.mp hmem).2.1
  · intro hmem; exact hbI (mem_find_orphaned.mp hmem).2.1

/-- Claim C2 (amended): every file reported as orphaned that is moreover the
target of no dependency edge is also reported as unused.  Unamended the claim
is false: an orphaned file can still be imported by another file, because
specifier resolution is purely path-based and never consults export sets, and
an imported file is exempt from the unused set. -/
theorem orphaned_unimported_is_unused
    (ctx : Ctx) (scanned : List AbsPath) (r : Report) (es : List (AbsPath × AbsPath))
    (p : AbsPath)
    (hE : graph_edges ctx scanned = .ok es)
    (hr : generate_report_on ctx scanned = .ok r)
    (horph : p ∈ r.orphaned_files)
    (himp : p ∉ importedFiles es) :
    p ∈ r.unused_files := by
  obtain ⟨-, hu, ho, -⟩ := generate_report_on_fields hE hr
  rw [ho] at horph
  rw [hu]
  obtain ⟨hmem, -, -, hent⟩ := mem_find_orphaned.mp horph
  exact mem_find_unused.mpr ⟨hmem, himp, hent⟩

/-- Claim C3 (amended): the exit code is `0` when both the unused and orphaned
sets are empty and `1` when either is non-empty; when the root path does not
exist the run aborts before any scanning with exit code `1` — the same code as
the findings case, not a distinct one. -/
theorem exit_code_spec (ctx : Ctx) :
    (pathExists ctx.fs ctx.rootDir = false → main_ret ctx = .ok 1) ∧
    (∀ r : Report, pathExists ctx.fs ctx.rootDir = true → generate_report ctx = .ok r →
      main_ret ctx =
        .ok (if r.unused_files.length > 0 || r.orphaned_files.length > 0 then 1 else 0)) := by
  constructor
  · intro h
    unfold main_ret
    rw [h]
    rfl
  · intro r hroot hrep
    unfold main_ret
    rw [hroot, hrep]
    rfl

/-- Claim C4: a specifier that starts with none of `.`, `/` and the alias
prefix `@/` immediately resolves to `None` (external package), and therefore
contributes no edge in the graph builder's inner loop. -/
theorem external_specifier_unresolved
    (ctx : Ctx) (fromFile : AbsPath) (s : String)
    (h1 : pyStartsWith s "." = false) (h2 : pyStartsWith s "/" = false)
    (h3 : pyStartsWith s "@/" = false) :
    resolve_import_path ctx fromFile s = .ok none ∧
    ∀ scanned rest, resolveTargets ctx scanned fromFile (s :: rest) =
      resolveTargets ctx scanned fromFile rest := by
  have hres : resolve_import_path ctx fromFile s = .ok none := by
    unfold resolve_import_path
    rw [h1, h2, h3]
    rfl
  refine ⟨hres, fun scanned rest => ?_⟩
  cases hrt : resolveTargets ctx scanned fromFile rest with
  | error e => rw [resolveTargets, hres, hrt]
  | ok ts => rw [resolveTargets, hres, hrt]

/-- Claim C5 (amended): for a relative specifier, after base expansion the
combined path is tried in this order: as an exact existing file; then with
each allowed extension substituted for the path's existing suffix (appended
only when the final component has no suffix) — so a specifier `./name.part`
is looked up as `name.ts`, not `name.part.ts`; then, when the path is an
existing directory, as an `index.<ext>` file inside it; the first candidate
that exists on disk is returned. -/
theorem resolve_relative_candidate_order
    (ctx : Ctx) (fromFile : AbsPath) (s : String)
    (hs : pyStartsWith s "." = true)
    (hname : pathName (pyNormalize (pyJoin fromFile.dropLast s)) ≠ "") :
    resolve_import_path ctx fromFile s =
      .ok (specCandidateSearch ctx.fs (pyNormalize (pyJoin fromFile.dropLast s))) := by
  have halias := pyStartsWith_dot_not_alias hs
  unfold resolve_import_path
  rw [hs, halias]
  simp only [Bool.not_true, Bool.false_and, Bool.false_eq_true, if_false]
  exact resolveCandidate_eq_spec hname

/-- Claim C6: a file whose text cannot be read proceeds with empty import and
export sets (the read exception is caught inside `parse_imports` and
`parse_exports` and reported as a warning, so the file contributes no
resolution work and cannot abort the run), and is classified as orphaned
exactly when it does not match the entry-point predicate. -/
theorem unreadable_file_empty_sets
    (ctx : Ctx) (scanned : List AbsPath) (p : AbsPath)
    (hp : p ∈ scanned) (hc : ctx.fs.content p = none) :
    importsOf ctx p = [] ∧ exportsOf ctx p = [] ∧
    fileImportsOf ctx scanned p = .ok [] ∧
    (p ∈ find_orphaned_files ctx scanned ↔ is_entry_point p = false) := by
  have hi : importsOf ctx p = [] := by unfold importsOf; rw [hc]
  have he : exportsOf ctx p = [] := by unfold exportsOf; rw [hc]
  refine ⟨hi, he, ?_, ?_⟩
  · unfold fileImportsOf
    rw [hi]
    rfl
  · constructor
    · intro h; exact (mem_find_orphaned.mp h).2.2.2
    · intro hent; exact mem_find_orphaned.mpr ⟨hp, hi, he, hent⟩

/-- Claim C7: a scanned file matching the entry-point predicate is a member of
neither the unused set nor the orphaned set — unconditionally, so in
particular even with zero incoming edges and empty import and export sets. -/
theorem entry_point_never_reported
    (ctx : Ctx) (scanned : List AbsPath) (r : Report)
    (hr : generate_report_on ctx scanned = .ok r)
    (p : AbsPath) (hent : is_entry_point p = true) :
    p ∉ r.unused_files ∧ p ∉ r.orphaned_files := by
  obtain ⟨es, hE⟩ := generate_report_on_edges hr
  obtain ⟨-, hu, ho, -⟩ := generate_report_on_fields hE hr
  rw [hu, ho]
  constructor
  · intro h
    have hfalse := (mem_find_unused.mp h).2.2
    rw [hent] at hfalse
    exact absurd hfalse (by simp)
  · intro h
    have hfalse := (mem_find_orphaned.mp h).2.2.2
    rw [hent] at hfalse
    exact absurd hfalse (by simp)

/-- Claim C8 (amended): on a fixed scanned file set with fixed contents, two
complete runs of the pipeline produce identical classification results
provided both runs observe the extension set in the same iteration order.
Under that proviso the iteration order of the scanned set is immaterial: the
two runs (quantified as two permutations of the set) produce the same total
count and permutations of the same unused, orphaned and export-less lists —
hence identical sets and identical summary counts.  Unamended the claim is
false: `include_extensions` is a hash set whose iteration order varies between
interpreter invocations, and that order decides which file an ambiguous
specifier resolves to, changing the unused set. -/
theorem pipeline_deterministic_fixed_ext_order
    (ctx : Ctx) (exts : List String) (l₁ l₂ : List AbsPath) (r₁ r₂ : Report)
    (hperm : l₁.Perm l₂)
    (h₁ : generateReportOnOrd ctx exts l₁ = .ok r₁)
    (h₂ : generateReportOnOrd ctx exts l₂ = .ok r₂) :
    r₁.total_files = r₂.total_files ∧
    r₁.unused_files.Perm r₂.unused_files ∧
    r₁.orphaned_files.Perm r₂.orphaned_files ∧
    r₁.files_with_no_exports.Perm r₂.files_with_no_exports := by
  obtain ⟨es₁, hE₁⟩ := generateReportOnOrd_edges h₁
  obtain ⟨es₂, hE₂⟩ := generateReportOnOrd_edges h₂
  obtain ⟨ht₁, hu₁, ho₁, hn₁⟩ := generateReportOnOrd_fields hE₁ h₁
  obtain ⟨ht₂, hu₂, ho₂, hn₂⟩ := generateReportOnOrd_fields hE₂ h₂
  have hesp : es₁.Perm es₂ := by
    have hgp := @graphEdgesOrd_perm ctx exts l₁ l₂ hperm
    rw [hE₁, hE₂] at hgp
    exact hgp
  refine ⟨?_, ?_, ?_, ?_⟩
  · rw [ht₁, ht₂]; exact hperm.length_eq
  · rw [hu₁, hu₂]
    unfold find_unused_files
    have hpred : ∀ p ∈ l₁,
        (!decide (p ∈ importedFiles es₁) && !is_entry_point p) =
        (!decide (p ∈ importedFiles es₂) && !is_entry_point p) := by
      intro p _
      have hm : (p ∈ importedFiles es₁) ↔ (p ∈ importedFiles es₂) :=
        (hesp.map Prod.snd).mem_iff
      rw [decide_eq_decide.mpr hm]
    rw [List.filter_congr hpred]
    exact hperm.filter _
  · rw [ho₁, ho₂]; exact hperm.filter _
  · rw [hn₁, hn₂]; exact hperm.filter _

/-- Claim C9 (amended): specifier resolution always terminates (the embedding
is a total function), and it returns a file or unresolved — never an
exception — for every non-alias specifier whose expanded path does not
normalize to the bare filesystem root.  Unamended the claim is false: a
specifier resolving to the filesystem root makes `with_suffix` raise
`ValueError`, and an alias specifier from a file whose root-relative path
merely begins with the string `packages` without having `packages` as a path
component makes `parts.index` raise `ValueError`. -/
theorem resolver_no_exception
    (ctx : Ctx) (fromFile : AbsPath) (s : String)
    (halias : pyStartsWith s "@/" = false)
    (hname : pathName (pyNormalize (pyJoin fromFile.dropLast s)) ≠ "") :
    ∃ r, resolve_import_path ctx fromFile s = .ok r := by
  unfold resolve_import_path
  rw [halias]
  by_cases hext : (!pyStartsWith s "." && !pyStartsWith s "/" && !false) = true
  · rw [if_pos hext]
    exact ⟨none, rfl⟩
  · rw [if_neg hext]
    simp only [Bool.false_eq_true, if_false]
    exact resolveCandidate_ok hname

/-- Claim C10: the orphaned set and the export-less set are disjoint:
membership in the former requires an empty import set, membership in the
latter a non-empty one. -/
theorem orphaned_disjoint_no_exports
    (ctx : Ctx) (scanned : List AbsPath) (r : Report)
    (hr : generate_report_on ctx scanned = .ok r) (p : AbsPath) :
    ¬(p ∈ r.orphaned_files ∧ p ∈ r.files_with_no_exports) := by
  obtain ⟨es, hE⟩ := generate_report_on_edges hr
  obtain ⟨-, -, ho, hn⟩ := generate_report_on_fields hE hr
  rw [ho, hn]
  rintro ⟨h₁, h₂⟩
  exact (mem_find_no_exports.mp h₂).2.1 (mem_find_orphaned.mp h₁).2.1

/-! ### Concrete runs used by counterexamples and witnesses -/

/-- File `a.ts` of the cyclic-pair run. -/
def pA : AbsPath := ["r", "a.ts"]

/-- File `b.ts` of the cyclic-pair run. -/
def pB : AbsPath := ["r", "b.ts"]

/-- Filesystem of the cyclic-pair run: two files under the root `r`. -/
def fsAB : FS :=
  { filesOnDisk := [pA, pB],
    dirsOnDisk := [["r"]],
    content := fun p => if p = pA then some "A" else if p = pB then some "B" else none }

/-- Cyclic-pair run: `a.ts` imports `./b` and exports `x`; `b.ts` imports
`./a` and exports `y`. -/
def ctxAB : Ctx :=
  { fs := fsAB, rootDir := ["r"],
    extractImports := fun s => if s = "A" then ["./b"] else if s = "B" then ["./a"] else [],
    extractExports := fun s => if s = "A" then ["x"] else if s = "B" then ["y"] else [] }

/-- Report of the cyclic-pair run. -/
def rAB : Report :=
  { total_files := 2, unused_files := [], orphaned_files := [], files_with_no_exports := [] }

/-- File `g.ts` of the orphan-importer run. -/
def pG : AbsPath := ["r", "g.ts"]

/-- File `f.ts` of the orphan-importer run. -/
def pF : AbsPath := ["r", "f.ts"]

/-- Filesystem of the orphan-importer run. -/
def fsGF : FS :=
  { filesOnDisk := [pG, pF],
    dirsOnDisk := [["r"]],
    content := fun p => if p = pG then some "G" else if p = pF then some "F" else none }

/-- Orphan-importer run: `g.ts` imports `./f` and exports `g`; `f.ts` has no
imports and no exports, yet is imported by `g.ts`. -/
def ctxGF : Ctx :=
  { fs := fsGF, rootDir := ["r"],
    extractImports := fun s => if s = "G" then ["./f"] else [],
    extractExports := fun s => if s = "G" then ["g"] else [] }

/-- Report of the orphan-importer run: `f.ts` is orphaned but not unused. -/
def rGF : Report :=
  { total_files := 2, unused_files := [pG], orphaned_files := [pF],
    files_with_no_exports := [] }

/-- Filesystem of the suffix-substitution run: the specifier `./n.p` is issued
while `n.p.ts` exists on disk. -/
def fsC5 : FS :=
  { filesOnDisk := [["r", "a.ts"], ["r", "n.p.ts"]],
    dirsOnDisk := [["r"]],
    content := fun _ => none }

/-- Context of the suffix-substitution run. -/
def ctxC5 : Ctx :=
  { fs := fsC5, rootDir := ["r"],
    extractImports := fun _ => [], extractExports := fun _ => [] }

/-- Filesystem with a top-level directory `packagesX` whose name merely begins
with the string `packages`. -/
def fsPkg : FS :=
  { filesOnDisk := [["r", "packagesX", "a.ts"]],
    dirsOnDisk := [["r"], ["r", "packagesX"]],
    content := fun _ => none }

/-- Context of the `packagesX` run. -/
def ctxPkg : Ctx :=
  { fs := fsPkg, rootDir := ["r"],
    extractImports := fun _ => [], extractExports := fun _ => [] }

/-- Context whose root path does not exist on the (empty) filesystem. -/
def ctxRoot : Ctx :=
  { fs := { filesOnDisk := [], dirsOnDisk := [], content := fun _ => none },
    rootDir := ["nope"],
    extractImports := fun _ => [], extractExports := fun _ => [] }

/-- File `u.ts` of the unreadable-file run. -/
def pU : AbsPath := ["r", "u.ts"]

/-- Unreadable-file run: one file whose text cannot be read. -/
def ctxBad : Ctx :=
  { fs := { filesOnDisk := [pU], dirsOnDisk := [["r"]], content := fun _ => none },
    rootDir := ["r"],
    extractImports := fun _ => [], extractExports := fun _ => [] }

/-- File `page.tsx` of the entry-point run. -/
def pPage : AbsPath := ["r", "page.tsx"]

/-- Entry-point run: a single `page.tsx` with zero edges and empty sets. -/
def ctxPage : Ctx :=
  { fs := { filesOnDisk := [pPage], dirsOnDisk := [["r"]], content := fun _ => none },
    rootDir := ["r"],
    extractImports := fun _ => [], extractExports := fun _ => [] }

/-! ### Counterexamples and witnesses -/

/-- Claim C1 is false as stated: in the concrete cyclic-pair run both edges
exist, both files are scanned, neither is an entry point and nothing else
imports them, yet the unused set of the report is empty — neither `a.ts` nor
`b.ts` appears in it, where the claim requires both to appear. -/
theorem cyclic_pair_counterexample :
    scan_files fsAB ["r"] = [pA, pB] ∧
    graph_edges ctxAB (scan_files fsAB ["r"]) = .ok [(pA, pB), (pB, pA)] ∧
    is_entry_point pA = false ∧ is_entry_point pB = false ∧
    generate_report ctxAB = .ok rAB ∧
    rAB.unused_files = [] :=
  ⟨rfl, rfl, rfl, rfl, rfl, rfl⟩

/-- Witness for claim C1's amended theorem at the concrete cyclic-pair run. -/
theorem cyclic_pair_not_unused_not_orphaned_witness :
    graph_edges ctxAB [pA, pB] = .ok [(pA, pB), (pB, pA)] ∧
    (pA ∉ rAB.unused_files ∧ pB ∉ rAB.unused_files ∧
     pA ∉ rAB.orphaned_files ∧ pB ∉ rAB.orphaned_files) :=
  ⟨rfl,
   cyclic_pair_not_unused_not_orphaned ctxAB [pA, pB] rAB [(pA, pB), (pB, pA)] pA pB
     rfl rfl (by decide) (by decide) (by decide) (by decide) (by decide)
     (by
       intro c hc hca hcb
       simp only [List.mem_cons, List.not_mem_nil, or_false] at hc
       rcases hc with rfl | rfl
       · exact absurd rfl hca
       · exact absurd rfl hcb)
     rfl rfl⟩

/-- Claim C2 is false as stated: in the orphan-importer run, `f.ts` is
reported orphaned (no imports, no exports, not an entry point) but is imported
by `g.ts`, so it is not reported unused — the orphaned set is not a subset of
the unused set. -/
theorem orphaned_subset_unused_counterexample :
    generate_report ctxGF = .ok rGF ∧
    pF ∈ rGF.orphaned_files ∧ pF ∉ rGF.unused_files :=
  ⟨rfl, by decide, by decide⟩

/-- Witness for claim C2's amended theorem at the unreadable-file run, whose
orphaned file has no incoming edge and is indeed reported unused. -/
theorem orphaned_unimported_is_unused_witness :
    generate_report_on ctxBad [pU] = .ok (Report.mk 1 [pU] [pU] []) ∧
    pU ∈ (Report.mk 1 [pU] [pU] []).unused_files :=
  ⟨rfl,
   orphaned_unimported_is_unused ctxBad [pU] (Report.mk 1 [pU] [pU] []) [] pU
     rfl rfl (by decide) (by decide)⟩

/-- Claim C3 is false as stated: when the root path does not exist the run
aborts with exit code `1`, which is not distinct from the code returned when
findings are non-empty. -/
theorem missing_root_exit_code_counterexample :
    pathExists ctxRoot.fs ctxRoot.rootDir = false ∧
    main_ret ctxRoot = .ok 1 :=
  ⟨rfl, rfl⟩

/-- Witness for claim C3's amended theorem: a run with findings exits `1`. -/
theorem exit_code_spec_witness :
    pathExists ctxGF.fs ctxGF.rootDir = true ∧ main_ret ctxGF = .ok 1 :=
  ⟨rfl, (exit_code_spec ctxGF).2 rGF rfl rfl⟩

/-- Witness for claim C4 at the specifier `react`. -/
theorem external_specifier_unresolved_witness :
    pyStartsWith "react" "." = false ∧ pyStartsWith "react" "/" = false ∧
    pyStartsWith "react" "@/" = false ∧
    resolve_import_path ctxAB pA "react" = .ok none :=
  ⟨rfl, rfl, rfl, (external_specifier_unresolved ctxAB pA "react" rfl rfl rfl).1⟩

/-- Claim C5 is false as stated: the extension is not appended.  For the
specifier `./n.p` issued from `a.ts` while the file `n.p.ts` exists on disk,
the resolver substitutes the suffix (`with_suffix` turns `n.p` into `n.ts`)
and returns unresolved, although the appended candidate `n.p.ts` exists. -/
theorem extension_append_counterexample :
    (["r", "n.p.ts"] ∈ fsC5.filesOnDisk) ∧
    pyWithSuffixName "n.p" ".ts" = "n.ts" ∧
    resolve_import_path ctxC5 ["r", "a.ts"] "./n.p" = .ok none :=
  ⟨by decide, rfl, rfl⟩

/-- Witness for claim C5's amended theorem at the suffix-substitution run. -/
theorem resolve_relative_candidate_order_witness :
    pyStartsWith "./n.p" "." = true ∧
    resolve_import_path ctxC5 ["r", "a.ts"] "./n.p" =
      .ok (specCandidateSearch fsC5 (pyNormalize (pyJoin (["r", "a.ts"] : AbsPath).dropLast "./n.p"))) :=
  ⟨rfl, resolve_relative_candidate_order ctxC5 ["r", "a.ts"] "./n.p" rfl (by decide)⟩

/-- Witness for claim C6 at the unreadable-file run. -/
theorem unreadable_file_empty_sets_witness :
    ctxBad.fs.content pU = none ∧
    (importsOf ctxBad pU = [] ∧ exportsOf ctxBad pU = [] ∧
     fileImportsOf ctxBad [pU] pU = .ok [] ∧
     (pU ∈ find_orphaned_files ctxBad [pU] ↔ is_entry_point pU = false)) :=
  ⟨rfl, unreadable_file_empty_sets ctxBad [pU] pU (by decide) rfl⟩

/-- Witness for claim C7 at the entry-point run: `page.tsx` has zero edges and
empty import and export sets, and is excluded from both result sets. -/
theorem entry_point_never_reported_witness :
    is_entry_point pPage = true ∧
    (pPage ∉ (Report.mk 1 [] [] []).unused_files ∧
     pPage ∉ (Report.mk 1 [] [] []).orphaned_files) :=
  ⟨rfl, entry_point_never_reported ctxPage [pPage] (Report.mk 1 [] [] []) rfl pPage rfl⟩

/-- One alternative iteration order of the extension hash set: `.tsx` before
`.ts` (any permutation can occur across interpreter invocations because string
hashing is randomized). -/
def extsSwapped : List String := [".tsx", ".ts", ".js", ".jsx", ".mjs", ".cjs"]

/-- Importing file of the ambiguous-specifier run. -/
def pA8 : AbsPath := ["r", "a8.ts"]

/-- File `n.ts` of the ambiguous-specifier run. -/
def pN1 : AbsPath := ["r", "n.ts"]

/-- File `n.tsx` of the ambiguous-specifier run. -/
def pN2 : AbsPath := ["r", "n.tsx"]

/-- Filesystem of the ambiguous-specifier run: `a8.ts` imports `./n` while
both `n.ts` and `n.tsx` exist on disk. -/
def fsN : FS :=
  { filesOnDisk := [pA8, pN1, pN2],
    dirsOnDisk := [["r"]],
    content := fun p => if p = pA8 then some "A" else some "N" }

/-- Context of the ambiguous-specifier run: `a8.ts` imports `./n` and exports
`x`; `n.ts` and `n.tsx` export `n` and import nothing. -/
def ctxN : Ctx :=
  { fs := fsN, rootDir := ["r"],
    extractImports := fun s => if s = "A" then ["./n"] else [],
    extractExports := fun s => if s = "A" then ["x"] else ["n"] }

/-- Report of the ambiguous-specifier run under the swapped extension order. -/
def rN : Report :=
  { total_files := 3, unused_files := [pA8, pN1], orphaned_files := [],
    files_with_no_exports := [] }

/-- Claim C8 is false as stated: two complete runs on the same fixed file set
with fixed contents can produce different unused sets.  The extension set is a
hash set iterated by the resolver, and its run-to-run order decides which file
the ambiguous specifier `./n` resolves to: under the order starting `.ts` the
edge goes to `n.ts` and `n.tsx` is unused, under the order starting `.tsx`
the edge goes to `n.tsx` and `n.ts` is unused. -/
theorem extension_order_changes_result :
    extsSwapped.Perm include_extensions ∧
    generateReportOnOrd ctxN include_extensions (scan_files fsN ["r"]) =
      .ok { total_files := 3, unused_files := [pA8, pN2], orphaned_files := [],
            files_with_no_exports := [] } ∧
    generateReportOnOrd ctxN extsSwapped (scan_files fsN ["r"]) =
      .ok { total_files := 3, unused_files := [pA8, pN1], orphaned_files := [],
            files_with_no_exports := [] } ∧
    pN2 ∈ ([pA8, pN2] : List AbsPath) ∧ pN2 ∉ ([pA8, pN1] : List AbsPath) :=
  ⟨by decide, rfl, rfl, by decide, by decide⟩

/-- Witness for claim C8's amended theorem: the ambiguous-specifier run under
the swapped extension order and two different iteration orders of the same
scanned set. -/
theorem pipeline_deterministic_fixed_ext_order_witness :
    ([pA8, pN1, pN2] : List AbsPath).Perm [pN2, pA8, pN1] ∧
    (rN.total_files = rN.total_files ∧
     rN.unused_files.Perm rN.unused_files ∧
     rN.orphaned_files.Perm rN.orphaned_files ∧
     rN.files_with_no_exports.Perm rN.files_with_no_exports) :=
  ⟨by decide,
   pipeline_deterministic_fixed_ext_order ctxN extsSwapped [pA8, pN1, pN2] [pN2, pA8, pN1]
     rN rN (by decide) rfl rfl⟩

/-- Claim C9 is false as stated: resolution can raise.  The specifier `/`
makes `with_suffix` raise `ValueError` (empty name), and the alias specifier
`@/y` from `r/packagesX/a.ts` makes `parts.index("packages")` raise
`ValueError` because `packages` is not a path component although the relative
path string starts with `packages`. -/
theorem resolver_exception_counterexample :
    resolve_import_path ctxAB pA "/" = .error .valueError ∧
    resolve_import_path ctxPkg ["r", "packagesX", "a.ts"] "@/y" = .error .valueError :=
  ⟨rfl, rfl⟩

/-- Witness for claim C9's amended theorem at the specifier `./b`. -/
theorem resolver_no_exception_witness :
    pyStartsWith "./b" "@/" = false ∧
    (∃ r, resolve_import_path ctxAB pA "./b" = .ok r) :=
  ⟨rfl, resolver_no_exception ctxAB pA "./b" rfl (by decide)⟩

/-- Witness for claim C10 at the orphan-importer run. -/
theorem orphaned_disjoint_no_exports_witness :
    ¬(pF ∈ rGF.orphaned_files ∧ pF ∈ rGF.files_with_no_exports) :=
  orphaned_disjoint_no_exports ctxGF (scan_files fsGF ["r"]) rGF rfl pF

end DeadCode
